import Mathlib

/-
  Verification development for the elastic-tools ETL pipeline.

  The source is a TypeScript project that pulls log documents from an
  Elasticsearch scroll cursor, decodes a possibly double-escaped JSON
  payload, projects it to a flat record, and batch-inserts the records
  into PostgreSQL with duplicate-skipping semantics.

  The embedding below models:
  - JSON / JavaScript values (JsValue) and JSON.parse (jsonParseS);
  - the payload decoder and projector extractPayloadFields
    (src/processing/logProcessor.ts), with JavaScript exceptions made
    explicit in an Except monad (member access on null/undefined throws);
  - the database layer batchInsertUserRecords / batchInsertBukopinRecords
    (src/services/database.ts) over an explicit row-list state, with
    Prisma createMany skipDuplicates modelled as key-conditional insertion
    on the schema's unique keys;
  - the run loop of src/index.ts (page-driven accumulation, batch
    submission at page boundaries, final flush, exit code);
  - the scroll iterator fetchLogs (src/services/elasticsearch.ts) as a
    transition function over an abstract backend, tracking clearScroll
    attempts on every exit path.
-/

namespace ElasticTools

/-- Model of a JavaScript/JSON value as it appears in the pipeline.
`undefined` models JavaScript undefined (absent property), `null` models
JSON null. Numbers are modelled as integers (the payloads' numeric
fields, e.g. salary, are integral per the Prisma schema). -/
inductive JsValue where
  | undefined : JsValue
  | null : JsValue
  | bool : Bool → JsValue
  | num : Int → JsValue
  | str : String → JsValue
  | arr : List JsValue → JsValue
  | obj : List (String × JsValue) → JsValue

/-- JavaScript truthiness: undefined, null, false, 0 and the empty string
are falsy; every object, array, non-zero number, non-empty string and
true are truthy. -/
def jsTruthy : JsValue → Bool
  | .undefined => false
  | .null => false
  | .bool b => b
  | .num n => n != 0
  | .str s => s != ""
  | .arr _ => true
  | .obj _ => true

/-- Property read on a non-nullish value: object lookup by key, anything
else (array, primitive) yields undefined for a string key. Never throws. -/
def jsIndex : JsValue → String → JsValue
  | .obj fs, k => (fs.lookup k).getD .undefined
  | _, _ => .undefined

/-- Property read with JavaScript exception semantics: reading a property
of null or undefined throws a TypeError (modelled as `Except.error ()`). -/
def jsGetE (v : JsValue) (k : String) : Except Unit JsValue :=
  match v with
  | .null => .error ()
  | .undefined => .error ()
  | _ => .ok (jsIndex v k)

/-- The typeof check of the decoder (line `typeof parsedPayload !== 'object'
|| parsedPayload === null`): only objects and arrays pass. -/
def isStruct : JsValue → Bool
  | .obj _ => true
  | .arr _ => true
  | _ => false

/-- Keep a parsed value only when it is an object or an array, as the
decoder's typeof/null check does. -/
def structOrNone (v : JsValue) : Option JsValue :=
  if isStruct v then some v else none

/-- Left brace character (written via its code point). -/
def lbrace : Char := Char.ofNat 123

/-- Right brace character (written via its code point). -/
def rbrace : Char := Char.ofNat 125

/-- JSON whitespace. -/
def isJsonWs (c : Char) : Bool :=
  c = ' ' || c = '\t' || c = '\n' || c = '\r'

/-- Drop leading JSON whitespace. -/
def skipWs : List Char → List Char
  | [] => []
  | c :: r => if isJsonWs c then skipWs r else c :: r

/-- Parse a run of decimal digits (at least one) into a natural number. -/
def parseDigitsAux : List Char → Nat → Option (Nat × List Char)
  | [], acc => some (acc, [])
  | c :: r, acc =>
    if c.isDigit then parseDigitsAux r (acc * 10 + (c.toNat - 48))
    else some (acc, c :: r)

/-- Parse one or more decimal digits. -/
def parseDigits : List Char → Option (Nat × List Char)
  | [] => none
  | c :: r =>
    if c.isDigit then parseDigitsAux r (c.toNat - 48)
    else none

/-- Hex digit value of a character, if it is one. -/
def hexVal (c : Char) : Option Nat :=
  if c.isDigit then some (c.toNat - 48)
  else if 'a' ≤ c && c ≤ 'f' then some (c.toNat - 97 + 10)
  else if 'A' ≤ c && c ≤ 'F' then some (c.toNat - 65 + 10)
  else none

/-- Parse the body of a JSON string literal (the opening quote already
consumed), handling the standard escapes; raw control characters are
rejected as JSON.parse does. -/
def parseStringAux : List Char → List Char → Option (String × List Char)
  | [], _ => none
  | '"' :: r, acc => some (String.mk acc.reverse, r)
  | '\\' :: e :: r, acc =>
    match e with
    | '"' => parseStringAux r ('"' :: acc)
    | '\\' => parseStringAux r ('\\' :: acc)
    | '/' => parseStringAux r ('/' :: acc)
    | 'b' => parseStringAux r (Char.ofNat 8 :: acc)
    | 'f' => parseStringAux r (Char.ofNat 12 :: acc)
    | 'n' => parseStringAux r ('\n' :: acc)
    | 'r' => parseStringAux r ('\r' :: acc)
    | 't' => parseStringAux r ('\t' :: acc)
    | 'u' =>
      match r with
      | h1 :: h2 :: h3 :: h4 :: r2 =>
        match hexVal h1, hexVal h2, hexVal h3, hexVal h4 with
        | some a, some b, some c, some d =>
          parseStringAux r2 (Char.ofNat (((a * 16 + b) * 16 + c) * 16 + d) :: acc)
        | _, _, _, _ => none
      | _ => none
    | _ => none
  | c :: r, acc =>
    if c.toNat < 32 then none else parseStringAux r (c :: acc)

mutual

/-- Fuelled JSON value parser (model of the grammar JSON.parse accepts;
numbers restricted to integers, which covers the payloads in scope). -/
def parseVal : Nat → List Char → Option (JsValue × List Char)
  | 0, _ => none
  | fuel + 1, cs =>
    match skipWs cs with
    | [] => none
    | c :: r =>
      if c = lbrace then
        match skipWs r with
        | c2 :: r2 =>
          if c2 = rbrace then some (.obj [], r2)
          else parseMembers fuel (c2 :: r2) []
        | [] => none
      else if c = '[' then
        match skipWs r with
        | ']' :: r2 => some (.arr [], r2)
        | r2 => parseElems fuel r2 []
      else if c = '"' then
        match parseStringAux r [] with
        | some (s, r2) => some (.str s, r2)
        | none => none
      else if c = 't' then
        match r with
        | 'r' :: 'u' :: 'e' :: r2 => some (.bool true, r2)
        | _ => none
      else if c = 'f' then
        match r with
        | 'a' :: 'l' :: 's' :: 'e' :: r2 => some (.bool false, r2)
        | _ => none
      else if c = 'n' then
        match r with
        | 'u' :: 'l' :: 'l' :: r2 => some (.null, r2)
        | _ => none
      else if c = '-' then
        match parseDigits r with
        | some (n, r2) => some (.num (-(n : Int)), r2)
        | none => none
      else if c.isDigit then
        match parseDigits (c :: r) with
        | some (n, r2) => some (.num (n : Int), r2)
        | none => none
      else none

/-- Parse the members of a JSON object after the opening brace (at least
one member expected at this point). -/
def parseMembers : Nat → List Char → List (String × JsValue) →
    Option (JsValue × List Char)
  | 0, _, _ => none
  | fuel + 1, cs, acc =>
    match skipWs cs with
    | '"' :: r =>
      match parseStringAux r [] with
      | some (k, r2) =>
        match skipWs r2 with
        | ':' :: r3 =>
          match parseVal fuel r3 with
          | some (v, r4) =>
            match skipWs r4 with
            | ',' :: r5 => parseMembers fuel r5 (acc ++ [(k, v)])
            | c :: r5 =>
              if c = rbrace then some (.obj (acc ++ [(k, v)]), r5)
              else none
            | [] => none
          | none => none
        | _ => none
      | none => none
    | _ => none

/-- Parse the elements of a JSON array after the opening bracket (at
least one element expected at this point). -/
def parseElems : Nat → List Char → List JsValue →
    Option (JsValue × List Char)
  | 0, _, _ => none
  | fuel + 1, cs, acc =>
    match parseVal fuel cs with
    | some (v, r) =>
      match skipWs r with
      | ',' :: r2 => parseElems fuel r2 (acc ++ [v])
      | ']' :: r2 => some (.arr (acc ++ [v]), r2)
      | _ => none
    | none => none

end

/-- Model of JSON.parse over a character list: parse one value and
require only trailing whitespace. Failure (a thrown SyntaxError in
JavaScript, always caught in the decoder) is `none`. -/
def jsonParseL (cs : List Char) : Option JsValue :=
  match parseVal (2 * cs.length + 2) cs with
  | some (v, rest) =>
    match skipWs rest with
    | [] => some v
    | _ => none
  | none => none

/-- Model of JSON.parse over a string. -/
def jsonParseS (s : String) : Option JsValue :=
  jsonParseL s.data

/-! Recovery-pass string operations of the decoder. -/

/-- Model of `payload.replace(/\\"/g, '"')`: replace every two-character
sequence backslash-quote by a quote, scanning left to right without
overlap, exactly as a global regex replace does. -/
def replaceEscQuoteL : List Char → List Char
  | [] => []
  | [c] => [c]
  | c :: d :: r =>
    if c = '\\' ∧ d = '"' then '"' :: replaceEscQuoteL r
    else c :: replaceEscQuoteL (d :: r)

/-- Escape every quote as backslash-quote. This is the inverse direction
of `replaceEscQuoteL`: the extra layer of quote-escaping that the
upstream producer's double-encoding adds to a JSON text. -/
def escQuoteL : List Char → List Char
  | [] => []
  | c :: r => if c = '"' then '\\' :: '"' :: escQuoteL r else c :: escQuoteL r

/-- String version of `escQuoteL`. -/
def escQuoteStr (s : String) : String :=
  String.mk (escQuoteL s.data)

/-- Modelled from the spec: the documented double-encoding pattern
(glossary: a payload that has been JSON-serialized twice). This models
JSON.stringify applied to a JSON text whose only characters needing
escapes are quotes: wrap in quotes and escape each inner quote. -/
def doubleEncodeStr (s : String) : String :=
  String.mk ('"' :: (escQuoteL s.data ++ ['"']))

/-- The check `correctedString.startsWith('"') && correctedString.endsWith('"')`. -/
def hasOuterQuotes (cs : List Char) : Bool :=
  (match cs with
   | '"' :: _ => true
   | _ => false) &&
  (match cs.getLast? with
   | some '"' => true
   | _ => false)

/-- The `slice(1, -1)` of the recovery pass: drop the first and last
character. -/
def stripOuter (cs : List Char) : List Char :=
  (cs.drop 1).dropLast

/-- The recovery pass of the decoder, exactly as coded: unescape
backslash-quote sequences, strip one outer quote pair if the result both
starts and ends with a quote, then parse again. -/
def decodeRecovered (s : String) : Option JsValue :=
  let c := replaceEscQuoteL s.data
  let c2 := if hasOuterQuotes c then stripOuter c else c
  jsonParseL c2

/-- Modelled from the spec's words (for comparison with the code path):
"unescape doubled quote sequences (backslash-quote to quote), then, if
the result is wrapped in an extra pair of quotes, strip them before a
second parse attempt". -/
def specRecoveryDecode (s : String) : Option JsValue :=
  let unescaped := replaceEscQuoteL s.data
  let unwrapped := if hasOuterQuotes unescaped then stripOuter unescaped else unescaped
  jsonParseL unwrapped

/-- The decode stage of extractPayloadFields (the try/catch block): a
string payload is JSON-parsed, with the recovery pass on failure; a
non-string payload is used as is; the result must be an object or array
(typeof check), otherwise the document is skipped (`none`). -/
def decodePayload : JsValue → Option JsValue
  | .str s =>
    (match jsonParseL s.data with
     | some v => structOrNone v
     | none =>
       match decodeRecovered s with
       | some v => structOrNone v
       | none => none)
  | v => structOrNone v

/-! Data model of the pipeline records. -/

/-- A raw log document from Elasticsearch `_source`: the `@timestamp`
field, the optional `uid` field (absent for bukopin documents) and the
`payload` field. -/
structure LogDocument where
  ts : String
  uid : Option String
  payload : JsValue

/-- The extracted profile section (each field is the JavaScript value
read from the decoded payload, undefined when absent). -/
structure ProfileFields where
  email : JsValue
  mobile : JsValue
  name : JsValue
  idType : JsValue
  idNo : JsValue

/-- The extracted salary details of the first employment entry. -/
structure SalaryDetails where
  salary : JsValue

/-- The extracted employment section (first entry of the employment
array). -/
structure EmploymentFields where
  id : JsValue
  eid : JsValue
  salaryDetails : Option SalaryDetails

/-- The processed payload: profile and employment sections when the
structured profile extracted them, or the raw payload for bukopin. -/
structure ProcessedPayload where
  profile : Option ProfileFields
  employment : Option EmploymentFields
  raw : Option JsValue

/-- A processed log document ready for database insertion. -/
structure ProcessedLogDocument where
  ts : String
  uid : Option String
  payload : ProcessedPayload

/-- The profile extraction of extractPayloadFields: if
`parsedPayload.profile` is truthy, read the five leaf fields (these reads
cannot throw, since a truthy value is not nullish); otherwise the profile
section stays unset. -/
def extractProfilePart (parsed : JsValue) : Option ProfileFields :=
  let pv := jsIndex parsed ("profile")
  if jsTruthy pv then
    some ⟨jsIndex pv ("email"), jsIndex pv ("mobile"), jsIndex pv ("name"),
          jsIndex pv ("idType"), jsIndex pv ("idNo")⟩
  else none

/-- The employment extraction of extractPayloadFields: guarded by
`parsedPayload.employment && Array.isArray(...) && length > 0`, it reads
`id`, `eid` and `salaryDetails` off the first array element. These reads
happen outside the decoder's try/catch; when the first element is null
(or undefined) they throw a TypeError, modelled as `Except.error ()`. -/
def extractEmploymentPart (parsed : JsValue) : Except Unit (Option EmploymentFields) :=
  match jsIndex parsed ("employment") with
  | .arr (fe :: _) =>
    match jsGetE fe ("id") with
    | .error e => .error e
    | .ok i =>
      match jsGetE fe ("eid") with
      | .error e => .error e
      | .ok ei =>
        match jsGetE fe ("salaryDetails") with
        | .error e => .error e
        | .ok sdv =>
          .ok (some ⟨i, ei,
            if jsTruthy sdv then some ⟨jsIndex sdv ("salary")⟩ else none⟩)
  | _ => .ok none

/-- Model of extractPayloadFields (src/processing/logProcessor.ts).
Returns `Except.error ()` when the JavaScript function would throw an
uncaught error, `.ok none` when it returns null (document skipped), and
`.ok (some record)` otherwise. The bukopin branch returns before any
decoding, storing the payload as received and defaulting the uid to the
empty string (`source.uid || ''`). -/
def extractPayloadFieldsE (source : LogDocument) (queryType : String) :
    Except Unit (Option ProcessedLogDocument) :=
  if jsTruthy source.payload = false then .ok none
  else if queryType = "bukopin" then
    .ok (some ⟨source.ts, some (source.uid.getD ("")),
               ⟨none, none, some source.payload⟩⟩)
  else
    match decodePayload source.payload with
    | none => .ok none
    | some parsed =>
      match extractEmploymentPart parsed with
      | .error e => .error e
      | .ok emp =>
        match extractProfilePart parsed, emp with
        | none, none => .ok none
        | p, e => .ok (some ⟨source.ts, source.uid, ⟨p, e, none⟩⟩)

/-! Database layer (src/services/database.ts) over an explicit state. -/

mutual

/-- Structural equality of JavaScript values (used for the bukopin
table's unique key, whose second component is the JSON payload). -/
def JsValue.beq : JsValue → JsValue → Bool
  | .undefined, .undefined => true
  | .null, .null => true
  | .bool a, .bool b => a == b
  | .num a, .num b => a == b
  | .str a, .str b => a == b
  | .arr a, .arr b => beqValList a b
  | .obj a, .obj b => beqFieldList a b
  | _, _ => false

/-- Elementwise equality of value lists. -/
def beqValList : List JsValue → List JsValue → Bool
  | [], [] => true
  | a :: as, b :: bs => JsValue.beq a b && beqValList as bs
  | _, _ => false

/-- Elementwise equality of object field lists. -/
def beqFieldList : List (String × JsValue) → List (String × JsValue) → Bool
  | [], [] => true
  | (k, v) :: as, (l, w) :: bs => k == l && JsValue.beq v w && beqFieldList as bs
  | _, _ => false

end

/-- A row of the UserLogin table, as built by batchInsertUserRecords:
`login_time: new Date(doc["@timestamp"])` (modelled by the timestamp
string itself, a deterministic function of it), `uid`, and the nullable
profile/employment columns. -/
structure UserRow where
  login_time : String
  uid : Option String
  email : JsValue
  mobile : JsValue
  name : JsValue
  id_type : JsValue
  id_no : JsValue
  ebid : JsValue
  eid : JsValue
  salary : JsValue

/-- The UserLogin table's unique key `@@unique([login_time, uid])` from
the Prisma schema. -/
def rowKey (r : UserRow) : String × Option String :=
  (r.login_time, r.uid)

/-- The record mapping of batchInsertUserRecords: optional chaining
`doc.payload.profile?.email` yields undefined when the section is
absent. -/
def toUserRow (d : ProcessedLogDocument) : UserRow where
  login_time := d.ts
  uid := d.uid
  email := match d.payload.profile with | some p => p.email | none => .undefined
  mobile := match d.payload.profile with | some p => p.mobile | none => .undefined
  name := match d.payload.profile with | some p => p.name | none => .undefined
  id_type := match d.payload.profile with | some p => p.idType | none => .undefined
  id_no := match d.payload.profile with | some p => p.idNo | none => .undefined
  ebid := match d.payload.employment with | some e => e.id | none => .undefined
  eid := match d.payload.employment with | some e => e.eid | none => .undefined
  salary :=
    match d.payload.employment with
    | some e => match e.salaryDetails with | some sd => sd.salary | none => .undefined
    | none => .undefined

/-- Modelled from the Prisma createMany skipDuplicates semantics over the
UserLogin unique key: rows are inserted in order, and a row whose
(login_time, uid) key already exists (in the table or earlier in the same
statement) is silently skipped. Returns the new table and the number of
rows actually inserted. -/
def insertRows : List UserRow → List UserRow → List UserRow × Nat
  | db, [] => (db, 0)
  | db, r :: rs =>
    if rowKey r ∈ db.map rowKey then insertRows db rs
    else
      let p := insertRows (db ++ [r]) rs
      (p.1, p.2 + 1)

/-- A row of the BukopinData table: timestamp and raw JSON payload. -/
def bukRowOf (d : ProcessedLogDocument) : String × JsValue :=
  (d.ts, (d.payload.raw).getD .undefined)

/-- Equality of the BukopinData unique key `@@unique([timestamp, payload])`. -/
def bukKeyBeq (a b : String × JsValue) : Bool :=
  a.1 == b.1 && JsValue.beq a.2 b.2

/-- Modelled from the Prisma createMany skipDuplicates semantics over the
BukopinData unique key. -/
def insertBukRows : List (String × JsValue) → List (String × JsValue) →
    List (String × JsValue) × Nat
  | db, [] => (db, 0)
  | db, r :: rs =>
    if db.any (fun q => bukKeyBeq q r) then insertBukRows db rs
    else
      let p := insertBukRows (db ++ [r]) rs
      (p.1, p.2 + 1)

/-- The database connection state: the two tables, plus a fault model of
the sink (the set of createMany call indices that raise a hard error,
e.g. connectivity loss; a failed statement is atomic, so the table is
unchanged). -/
structure DbState where
  rows : List UserRow
  bukRows : List (String × JsValue)
  failSet : List Nat
  calls : Nat

/-- Model of batchInsertUserRecords: empty batches short-circuit with
zero counts; otherwise one createMany call is made with skipDuplicates.
A hard error of the call is caught inside the function and reported as
`{ inserted: 0, skipped: batch.length }` (the code comment: "If
createMany fails entirely ... consider all as failed/skipped for this
batch"). -/
def batchInsertUserRecordsM (st : DbState) (batch : List ProcessedLogDocument) :
    DbState × Nat × Nat :=
  if batch.isEmpty then (st, 0, 0)
  else if st.calls ∈ st.failSet then
    ({ st with calls := st.calls + 1 }, 0, batch.length)
  else
    let p := insertRows st.rows (batch.map toUserRow)
    ({ st with rows := p.1, calls := st.calls + 1 }, p.2, batch.length - p.2)

/-- Model of batchInsertBukopinRecords, same shape as the user-record
insert but over the BukopinData table. -/
def batchInsertBukopinRecordsM (st : DbState) (batch : List ProcessedLogDocument) :
    DbState × Nat × Nat :=
  if batch.isEmpty then (st, 0, 0)
  else if st.calls ∈ st.failSet then
    ({ st with calls := st.calls + 1 }, 0, batch.length)
  else
    let p := insertBukRows st.bukRows (batch.map bukRowOf)
    ({ st with bukRows := p.1, calls := st.calls + 1 }, p.2, batch.length - p.2)

/-! The run loop of src/index.ts. -/

/-- The query-type dispatch of the run loop: bukopin batches go to the
bukopin table, everything else to UserLogin. -/
def submitBatch (queryType : String) (st : DbState)
    (batch : List ProcessedLogDocument) : DbState × Nat × Nat :=
  if queryType = "bukopin" then batchInsertBukopinRecordsM st batch
  else batchInsertUserRecordsM st batch

/-- The per-document extraction map of the run loop: extraction runs
eagerly per document in page order (the map wraps each result in an
already-resolved promise), so a thrown extraction error aborts the whole
page and propagates. -/
def mapExtract (queryType : String) : List LogDocument →
    Except Unit (List (Option ProcessedLogDocument))
  | [] => .ok []
  | d :: ds =>
    match extractPayloadFieldsE d queryType with
    | .error e => .error e
    | .ok r =>
      match mapExtract queryType ds with
      | .error e => .error e
      | .ok rs => .ok (r :: rs)

/-- Per-page processing of the run loop: every document of the page is
passed through extractPayloadFields; null results are dropped and
counted as payload-skipped. Returns the kept records and the skip
count. -/
def processPage (queryType : String) (docs : List LogDocument) :
    Except Unit (List ProcessedLogDocument × Nat) :=
  match mapExtract queryType docs with
  | .error e => .error e
  | .ok results =>
    let kept := results.filterMap id
    .ok (kept, results.length - kept.length)

/-- The observable outcome of one pipeline run. -/
structure RunResult where
  fetched : Nat
  payloadSkipped : Nat
  inserted : Nat
  dbSkipped : Nat
  exitCode : Nat
  submissions : List Nat
  db : DbState

/-- The batch size configured in the run loop. -/
def batchSize : Nat := 1000

/-- The run loop of src/index.ts: accumulate processed records across
pages; after a page, if the buffer has reached the batch size, submit the
ENTIRE buffer in one call and reset it; after the last page, flush any
non-empty remainder. An extraction error is caught by the run's outer
try/catch: exit code 1, and neither the remaining pages nor the final
flush happen. Hard sink errors are invisible here (they are caught inside
the batch-insert functions), so they never change the exit code. -/
def runLoop (queryType : String) : List (List LogDocument) →
    List ProcessedLogDocument → Nat → Nat → Nat → Nat → List Nat → DbState → RunResult
  | [], buf, fetched, skippedP, ins, dbSk, subs, st =>
    if buf.length > 0 then
      let p := submitBatch queryType st buf
      ⟨fetched, skippedP, ins + p.2.1, dbSk + p.2.2, 0, subs ++ [buf.length], p.1⟩
    else ⟨fetched, skippedP, ins, dbSk, 0, subs, st⟩
  | pg :: rest, buf, fetched, skippedP, ins, dbSk, subs, st =>
    match processPage queryType pg with
    | .error _ => ⟨fetched + pg.length, skippedP, ins, dbSk, 1, subs, st⟩
    | .ok pr =>
      let buf2 := buf ++ pr.1
      if buf2.length ≥ batchSize then
        let p := submitBatch queryType st buf2
        runLoop queryType rest [] (fetched + pg.length) (skippedP + pr.2)
          (ins + p.2.1) (dbSk + p.2.2) (subs ++ [buf2.length]) p.1
      else
        runLoop queryType rest buf2 (fetched + pg.length) (skippedP + pr.2)
          ins dbSk subs st

/-- One pipeline run over a successful fetch stream of pages. -/
def runPipeline (queryType : String) (pages : List (List LogDocument))
    (st : DbState) : RunResult :=
  runLoop queryType pages [] 0 0 0 0 [] st

/-! The scroll iterator fetchLogs (src/services/elasticsearch.ts). -/

/-- An abstract Elasticsearch backend: the initial search response, the
response to the n-th scroll call, and the outcome of clearScroll. Every
response is either a hard error or a page of hits plus an optional new
scroll id. -/
structure EsBackend where
  searchResult : Except Unit (List LogDocument × Option String)
  scrollResult : Nat → Except Unit (List LogDocument × Option String)
  clearResult : Except Unit Unit

/-- The teardown of fetchLogs: `if (scrollId) { try { clearScroll } catch
{ log } }`. The attempt happens exactly when a scroll id is held; a
failure of the call is caught (logged), so it counts as an attempt but
never produces a propagated error. Returns the number of attempts. -/
def clearAttempts (b : EsBackend) (sid : Option String) : Nat :=
  match sid with
  | none => 0
  | some _ => match b.clearResult with | .ok _ => 1 | .error _ => 1

/-- Whether the teardown itself propagates an error to the caller: never,
because the clearScroll call is wrapped in its own try/catch. -/
def clearPropagates (b : EsBackend) (sid : Option String) : Bool :=
  match sid with
  | none => false
  | some _ => match b.clearResult with | .ok _ => false | .error _ => false

/-- The observable outcome of one iteration of fetchLogs: the pages
yielded to the consumer, the number of clearScroll attempts at teardown,
whether an error propagated to the caller, and the scroll id held when
the finally block ran. -/
structure FetchRun where
  pages : List (List LogDocument)
  clearCalls : Nat
  fatalErr : Bool
  sidAtEnd : Option String

/-- The scroll loop of fetchLogs, driven by the consumer: `consume` is
the number of pages the consumer is still willing to take before
abandoning the generator (abandonment runs the finally block from the
current yield point). While hits are non-empty and a scroll id is held,
the page is yielded and the next scroll response is awaited; a scroll
error propagates after the teardown; otherwise hits and scroll id are
replaced by the response's. -/
def fetchLoop (b : EsBackend) : List LogDocument → Option String → Nat → Nat → FetchRun
  | hits, sid, idx, consume =>
    match hits, sid with
    | _ :: _, some s =>
      (match consume with
       | 0 => ⟨[], clearAttempts b (some s), clearPropagates b (some s), some s⟩
       | c + 1 =>
         match b.scrollResult idx with
         | .error _ => ⟨[hits], clearAttempts b (some s), true, some s⟩
         | .ok pr =>
           let r := fetchLoop b pr.1 pr.2 (idx + 1) c
           ⟨hits :: r.pages, r.clearCalls, r.fatalErr, r.sidAtEnd⟩)
    | _, _ => ⟨[], clearAttempts b sid, clearPropagates b sid, sid⟩

/-- Model of fetchLogs: the initial search runs first; if it errors, the
error propagates and the finally block runs with no scroll id assigned
(so no clearScroll is attempted); otherwise the scroll loop runs. -/
def runFetchLogs (b : EsBackend) (consume : Nat) : FetchRun :=
  match b.searchResult with
  | .error _ => ⟨[], 0, true, none⟩
  | .ok pr => fetchLoop b pr.1 pr.2 0 consume

/-! Concrete sample inputs used by the witnesses and counterexamples. -/

/-- Whether a value is a non-empty array (the guard of the employment
extraction, `Array.isArray(x) && x.length > 0`, for truthy x). -/
def isNonEmptyArr : JsValue → Bool
  | .arr (_ :: _) => true
  | _ => false

/-- The JSON text of the object with one field a = 1. -/
def jsonTextA : String := "\x7b\"a\":1\x7d"

/-- The parsed object with one field a = 1. -/
def objA : JsValue := JsValue.obj [("a", JsValue.num 1)]

/-- A document whose payload is already a structured object carrying a
profile email: projection succeeds on it. -/
def goodDoc : LogDocument :=
  ⟨"t", some ("u"), .obj [("profile", .obj [("email", .str ("e"))])]⟩

/-- The projected record of `goodDoc`. -/
def goodRecA : ProcessedLogDocument :=
  ⟨"t", some ("u"),
   ⟨some ⟨.str ("e"), .undefined, .undefined, .undefined, .undefined⟩, none, none⟩⟩

/-- A document whose payload parses to an object whose employment array
holds a single null entry: reading `.id` off that entry throws. -/
def throwDocC2 : LogDocument :=
  ⟨"t", some ("u"), .str ("\x7b\"employment\":[null]\x7d")⟩

/-- A bukopin document whose payload is a JSON string (no uid field is
retrieved for bukopin queries). -/
def bukDocA : LogDocument := ⟨"t1", none, .str jsonTextA⟩

/-- A minimal processed record. -/
def pdA : ProcessedLogDocument := ⟨"t", some ("u"), ⟨none, none, none⟩⟩

/-- A backend whose initial search request fails. -/
def esBackendSearchErr : EsBackend := ⟨.error (), fun _ => .error (), .ok ()⟩

/-! Helper lemmas. -/

/-- Quote-escaping never produces a leading quote: the head of the
escaped text is either a backslash or the unescaped head. -/
theorem escQuoteL_head_ne (t : List Char) (d : Char) (r : List Char)
    (h : escQuoteL t = d :: r) : d ≠ '"' := by
  cases t with
  | nil => simp [escQuoteL] at h
  | cons x t2 =>
    by_cases hx : x = '"'
    · subst hx
      simp only [escQuoteL, if_pos rfl] at h
      intro hd
      subst hd
      exact absurd (List.head_eq_of_cons_eq h).symm (by decide)
    · simp only [escQuoteL, if_neg hx] at h
      intro hd
      exact hx ((List.head_eq_of_cons_eq h).trans hd)

/-- The recovery replace undoes the extra quote-escaping layer:
replacing every backslash-quote by a quote in the quote-escaped text
gives back the original text. -/
theorem replaceEscQuoteL_escQuoteL (l : List Char) :
    replaceEscQuoteL (escQuoteL l) = l := by
  induction l with
  | nil => rfl
  | cons c t ih =>
    by_cases hc : c = '"'
    · subst hc
      simp only [escQuoteL, if_pos rfl, replaceEscQuoteL, if_pos (by decide : ('\\' : Char) = '\\' ∧ ('"' : Char) = '"')]
      exact congrArg _ ih
    · simp only [escQuoteL, if_neg hc]
      cases he : escQuoteL t with
      | nil =>
        have ht : t = [] := by
          cases t with
          | nil => rfl
          | cons y t3 =>
            by_cases hy : y = '"' <;> simp [escQuoteL, hy] at he
        subst ht
        simp [replaceEscQuoteL]
      | cons d r2 =>
        have hd : d ≠ '"' := escQuoteL_head_ne t d r2 he
        simp only [replaceEscQuoteL]
        rw [if_neg (by intro hcd; exact hd hcd.2)]
        rw [← he, ih]

/-! Claim theorems. -/

/-- Claim C2 (code_bug): the decoder is claimed never to raise an
uncaught error, returning a processed result or null for every payload
value. The code violates this: for the valid JSON payload
`\x7b"employment":[null]\x7d` the parse succeeds, the object passes the
typeof check, and the field extraction — which sits OUTSIDE the
decoder's try/catch — reads `.id` off the null first employment entry
and throws an uncaught TypeError. -/
theorem claim_C2_theorem :
    jsonParseS ("\x7b\"employment\":[null]\x7d") =
      some (.obj [("employment", .arr [.null])]) ∧
    extractPayloadFieldsE throwDocC2 ("retrieveUserInfo") = .error () :=
  ⟨rfl, rfl⟩

/-- Claim C4 (confirmed): for every payload string that JSON-parses to a
structure (object or array), the decode stage succeeds on the first
parse and uses the parsed structure unchanged as the decoded payload. -/
theorem claim_C4_theorem (s : String) (v : JsValue)
    (h : jsonParseS s = some v) (hv : isStruct v = true) :
    decodePayload (.str s) = some v := by
  have h2 : jsonParseL s.data = some v := h
  simp only [decodePayload, h2, structOrNone, hv, if_true]

/-- Witness for C4 at the concrete singly-encoded payload text of the
object with field a = 1. -/
theorem claim_C4_witness :
    jsonParseS jsonTextA = some objA ∧ isStruct objA = true ∧
    decodePayload (.str jsonTextA) = some objA :=
  ⟨rfl, rfl, claim_C4_theorem jsonTextA objA rfl rfl⟩

/-- Claim C3 (corrected). First conjunct: whenever the direct parse of a
string payload fails, the decoder performs exactly the recovery the spec
describes (specRecoveryDecode transcribes the spec's words), followed by
the structural typeof check. Second conjunct: a payload carrying one
extra layer of quote-escaping over a JSON structure text — when that
escaped text itself fails direct parse and carries no outer quote pair —
is recovered to the original structure. (The fully double-encoded
pattern, by contrast, parses directly to a string and is rejected: see
the counterexample.) -/
theorem claim_C3_amended :
    (∀ s : String, jsonParseS s = none →
       decodePayload (.str s) = (specRecoveryDecode s).bind structOrNone) ∧
    (∀ (s : String) (v : JsValue), jsonParseS s = some v → isStruct v = true →
       jsonParseS (escQuoteStr s) = none → hasOuterQuotes s.data = false →
       decodePayload (.str (escQuoteStr s)) = some v) := by
  constructor
  · intro s h
    have h2 : jsonParseL s.data = none := h
    have hsr : specRecoveryDecode s = decodeRecovered s := rfl
    simp only [decodePayload, h2, hsr]
    cases hd : decodeRecovered s with
    | none => rfl
    | some v => rfl
  · intro s v h hv h2 h3
    have h2l : jsonParseL (escQuoteL s.data) = none := h2
    have hparse : jsonParseL s.data = some v := h
    simp only [decodePayload, escQuoteStr, h2l, decodeRecovered,
               replaceEscQuoteL_escQuoteL, h3, Bool.false_eq_true, if_false,
               hparse, structOrNone, hv, if_true]

/-- Witness for the second conjunct of the amended C3: the quote-escaped
text of the a = 1 object fails direct parse and is recovered to the
object by the replace pass. -/
theorem claim_C3_witness :
    jsonParseS (escQuoteStr jsonTextA) = none ∧
    decodePayload (.str (escQuoteStr jsonTextA)) = some objA :=
  ⟨rfl, claim_C3_amended.2 jsonTextA objA rfl rfl rfl rfl⟩

/-- Counterexample for C3 as stated: the payload produced by the
documented double-encoding pattern (JSON-serialized twice) is itself
valid JSON, so the first parse succeeds and yields a STRING; the decoder
then rejects it at the typeof check and returns the failure marker
instead of recovering the original a = 1 structure. -/
theorem claim_C3_counterexample :
    jsonParseS jsonTextA = some objA ∧ isStruct objA = true ∧
    jsonParseS (doubleEncodeStr jsonTextA) = some (.str jsonTextA) ∧
    decodePayload (.str (doubleEncodeStr jsonTextA)) = none :=
  ⟨rfl, rfl, rfl, rfl⟩

/-- Claim C8 (confirmed): when the decoded payload has no truthy
top-level profile section and no non-empty employment array — so no
structured-profile field can be populated — the projector returns null
and the record is dropped. -/
theorem claim_C8_theorem (d : LogDocument) (parsed : JsValue)
    (ht : jsTruthy d.payload = true)
    (hd : decodePayload d.payload = some parsed)
    (hp : jsTruthy (jsIndex parsed ("profile")) = false)
    (he : isNonEmptyArr (jsIndex parsed ("employment")) = false) :
    extractPayloadFieldsE d ("retrieveUserInfo") = .ok none := by
  simp only [extractPayloadFieldsE, ht, Bool.true_eq_false, if_false]
  rw [if_neg (by decide)]
  simp only [hd]
  have hprof : extractProfilePart parsed = none := by
    simp only [extractProfilePart, hp, Bool.false_eq_true, if_false]
  have hemp : extractEmploymentPart parsed = .ok none := by
    unfold extractEmploymentPart
    cases hE : jsIndex parsed ("employment") with
    | arr xs =>
      cases xs with
      | nil => rfl
      | cons fe rest =>
        rw [hE] at he
        simp [isNonEmptyArr] at he
    | undefined => rfl
    | null => rfl
    | bool b => rfl
    | num n => rfl
    | str s => rfl
    | obj fs => rfl
  rw [hprof, hemp]

/-- Witness for C8: a payload object with a single unrelated field is
dropped by the projector. -/
theorem claim_C8_witness :
    extractPayloadFieldsE ⟨"t", some ("u"), .obj [("x", .num 1)]⟩
      ("retrieveUserInfo") = .ok none :=
  claim_C8_theorem ⟨"t", some ("u"), .obj [("x", .num 1)]⟩
    (.obj [("x", .num 1)]) rfl rfl rfl rfl

/-- Claim C9 (corrected): under the bukopin profile the projector skips
field-level extraction AND skips decoding entirely — the raw payload
value is stored verbatim (undecoded) under the raw field, with the
timestamp and the uid defaulted to the empty string. -/
theorem claim_C9_amended (d : LogDocument) (ht : jsTruthy d.payload = true) :
    extractPayloadFieldsE d ("bukopin") =
      .ok (some ⟨d.ts, some (d.uid.getD ("")),
                 ⟨none, none, some d.payload⟩⟩) := by
  simp only [extractPayloadFieldsE, ht, Bool.true_eq_false, if_false]
  rw [if_pos trivial]

/-- Witness for the amended C9 at a concrete bukopin document. -/
theorem claim_C9_witness :
    extractPayloadFieldsE ⟨"t2", none, .str ("abc")⟩ ("bukopin") =
      .ok (some ⟨"t2", some (""), ⟨none, none, some (.str ("abc"))⟩⟩) :=
  claim_C9_amended ⟨"t2", none, .str ("abc")⟩ rfl

/-- Counterexample for C9 as stated: for a bukopin document whose payload
is a JSON STRING, the stored raw value is that string, not the decoded
payload — the claim's "stores the entire decoded payload" fails, since
decoding the same payload yields the a = 1 object, which is not the
stored string. -/
theorem claim_C9_counterexample :
    extractPayloadFieldsE bukDocA ("bukopin") =
      .ok (some ⟨"t1", some (""), ⟨none, none, some (.str jsonTextA)⟩⟩) ∧
    decodePayload (.str jsonTextA) = some objA ∧
    JsValue.str jsonTextA ≠ objA :=
  ⟨rfl, rfl, fun h => by simp [objA] at h⟩

/-- Claim C10 (confirmed): whenever the projector returns a record —
under either profile — the record's timestamp is exactly the input
document's timestamp. -/
theorem claim_C10_theorem (d : LogDocument) (qt : String)
    (r : ProcessedLogDocument)
    (h : extractPayloadFieldsE d qt = .ok (some r)) : r.ts = d.ts := by
  unfold extractPayloadFieldsE at h
  split at h
  · simp at h
  · split at h
    · simp only [Except.ok.injEq, Option.some.injEq] at h
      rw [← h]
    · split at h
      · simp at h
      · rename_i parsed
        split at h
        · simp at h
        · split at h
          · simp at h
          · simp only [Except.ok.injEq, Option.some.injEq] at h
            rw [← h]

/-- Witness for C10 at a structured-profile document. -/
theorem claim_C10_witness :
    extractPayloadFieldsE goodDoc ("retrieveUserInfo") = .ok (some goodRecA) ∧
    goodRecA.ts = goodDoc.ts :=
  ⟨rfl, claim_C10_theorem goodDoc ("retrieveUserInfo") goodRecA rfl⟩

/-- Keys already present in the table survive a skip-duplicates insert. -/
theorem insertRows_mem_key (rs : List UserRow) :
    ∀ (db : List UserRow) (k : String × Option String),
      k ∈ db.map rowKey → k ∈ (insertRows db rs).1.map rowKey := by
  induction rs with
  | nil => intro db k h; exact h
  | cons r rs ih =>
    intro db k h
    simp only [insertRows]
    split
    · exact ih db k h
    · show k ∈ (insertRows (db ++ [r]) rs).1.map rowKey
      exact ih (db ++ [r]) k (by rw [List.map_append]; exact List.mem_append_left _ h)

/-- After a skip-duplicates insert, the key of every submitted row is
present in the table (it was either inserted or already there). -/
theorem insertRows_key_present (rs : List UserRow) :
    ∀ (db : List UserRow) (r : UserRow), r ∈ rs →
      rowKey r ∈ (insertRows db rs).1.map rowKey := by
  induction rs with
  | nil => intro db r h; cases h
  | cons a rs ih =>
    intro db r h
    simp only [insertRows]
    rcases List.mem_cons.mp h with h1 | h2
    · subst h1
      split
      · next hmem => exact insertRows_mem_key rs db _ hmem
      · show rowKey r ∈ (insertRows (db ++ [r]) rs).1.map rowKey
        refine insertRows_mem_key rs (db ++ [r]) _ ?_
        rw [List.map_append]
        exact List.mem_append_right _ (by simp)
    · split
      · exact ih db r h2
      · show rowKey r ∈ (insertRows (db ++ [a]) rs).1.map rowKey
        exact ih (db ++ [a]) r h2

/-- A skip-duplicates insert whose every row's key is already present
leaves the table unchanged and inserts zero rows. -/
theorem insertRows_all_dup (rs : List UserRow) :
    ∀ db : List UserRow, (∀ r ∈ rs, rowKey r ∈ db.map rowKey) →
      insertRows db rs = (db, 0) := by
  induction rs with
  | nil => intro db _; rfl
  | cons a rs ih =>
    intro db h
    simp only [insertRows]
    rw [if_pos (h a (List.mem_cons_self a rs))]
    exact ih db (fun r hr => h r (List.mem_cons_of_mem a hr))

/-- Claim C5 (confirmed): the load step is idempotent over the
(login_time, uid) uniqueness key. Running batchInsertUserRecords twice
on the same batch against a healthy sink gives, on the second run, zero
inserted rows and every row skipped as a duplicate, and leaves the table
exactly as after the first run. -/
theorem claim_C5_theorem (rows0 : List UserRow) (bk : List (String × JsValue))
    (c : Nat) (batch : List ProcessedLogDocument) :
    (batchInsertUserRecordsM
        (batchInsertUserRecordsM ⟨rows0, bk, [], c⟩ batch).1 batch).2.1 = 0 ∧
    (batchInsertUserRecordsM
        (batchInsertUserRecordsM ⟨rows0, bk, [], c⟩ batch).1 batch).2.2 =
      batch.length ∧
    (batchInsertUserRecordsM
        (batchInsertUserRecordsM ⟨rows0, bk, [], c⟩ batch).1 batch).1.rows =
      (batchInsertUserRecordsM ⟨rows0, bk, [], c⟩ batch).1.rows := by
  cases batch with
  | nil => exact ⟨rfl, rfl, rfl⟩
  | cons b bs =>
    have hdup : ∀ r ∈ (b :: bs).map toUserRow,
        rowKey r ∈ (insertRows rows0 ((b :: bs).map toUserRow)).1.map rowKey :=
      fun r hr => insertRows_key_present ((b :: bs).map toUserRow) rows0 r hr
    have hins := insertRows_all_dup ((b :: bs).map toUserRow)
      (insertRows rows0 ((b :: bs).map toUserRow)).1 hdup
    simp only [batchInsertUserRecordsM, List.isEmpty_cons, Bool.false_eq_true,
               if_false, List.not_mem_nil, if_neg, hins]
    simp [hins]

/-- Submission sizes and the exit code of the run loop do not depend on
the sink state at all (sink results only feed the inserted/skipped
counters): hard sink errors can never stop later batches nor change the
exit code. -/
theorem runLoop_sched_indep (qt : String) :
    ∀ (pages : List (List LogDocument)) (buf : List ProcessedLogDocument)
      (f sp i d i2 d2 : Nat) (subs : List Nat) (st st2 : DbState),
      (runLoop qt pages buf f sp i d subs st).exitCode =
        (runLoop qt pages buf f sp i2 d2 subs st2).exitCode ∧
      (runLoop qt pages buf f sp i d subs st).submissions =
        (runLoop qt pages buf f sp i2 d2 subs st2).submissions := by
  intro pages
  induction pages with
  | nil =>
    intro buf f sp i d i2 d2 subs st st2
    by_cases hb : buf.length > 0 <;> simp [runLoop, hb]
  | cons pg rest ih =>
    intro buf f sp i d i2 d2 subs st st2
    simp only [runLoop]
    cases hpp : processPage qt pg with
    | error e => exact ⟨rfl, rfl⟩
    | ok pr =>
      by_cases hb : (buf ++ pr.1).length ≥ batchSize
      · simp only [if_pos hb]
        exact ih [] (f + pg.length) (sp + pr.2) _ _ _ _ (subs ++ [(buf ++ pr.1).length]) _ _
      · simp only [if_neg hb]
        exact ih (buf ++ pr.1) (f + pg.length) (sp + pr.2) i d i2 d2 subs st st2

/-- Claim C6 (corrected). First conjunct: a hard sink error is caught
INSIDE batchInsertUserRecords, which reports the whole batch as
inserted = 0 and skipped = batch length (the run adds these to its
duplicate-skip counter; there is no failed counter) and leaves the table
unchanged. Second conjunct: the run's exit code and its submission
schedule are independent of the sink state, so the pipeline continues
through subsequent batches and finishes with exit code 0 — not a
degraded status. -/
theorem claim_C6_amended :
    (∀ (st : DbState) (batch : List ProcessedLogDocument),
       batch ≠ [] → st.calls ∈ st.failSet →
       batchInsertUserRecordsM st batch =
         ({ st with calls := st.calls + 1 }, 0, batch.length)) ∧
    (∀ (qt : String) (pages : List (List LogDocument)) (st st2 : DbState),
       (runPipeline qt pages st).exitCode = (runPipeline qt pages st2).exitCode ∧
       (runPipeline qt pages st).submissions =
         (runPipeline qt pages st2).submissions) := by
  constructor
  · intro st batch h1 h2
    have hne : batch.isEmpty = false := by
      cases batch with
      | nil => exact absurd rfl h1
      | cons x xs => rfl
    simp only [batchInsertUserRecordsM, hne, Bool.false_eq_true, if_false,
               if_pos h2]
  · intro qt pages st st2
    exact runLoop_sched_indep qt pages [] 0 0 0 0 0 0 [] st st2

/-- Witness for the amended C6: a failing sink call on a one-record
batch is reported as inserted = 0, skipped = 1, table unchanged. -/
theorem claim_C6_witness :
    batchInsertUserRecordsM ⟨[], [], [0], 0⟩ [pdA] = (⟨[], [], [0], 1⟩, 0, 1) :=
  claim_C6_amended.1 ⟨[], [], [0], 0⟩ [pdA] (by simp) (by simp)


/-- The projector maps the good document to its record. -/
theorem extract_goodDoc_eq :
    extractPayloadFieldsE goodDoc ("retrieveUserInfo") = .ok (some goodRecA) := rfl

/-- Extraction over a page of n good documents succeeds elementwise. -/
theorem mapExtract_goodDoc (n : Nat) :
    mapExtract ("retrieveUserInfo") (List.replicate n goodDoc) =
      .ok (List.replicate n (some goodRecA)) := by
  induction n with
  | zero => rfl
  | succ n ih =>
    rw [List.replicate_succ, List.replicate_succ]
    simp only [mapExtract, extract_goodDoc_eq, ih]

/-- Processing a page of n good documents keeps all n records and skips
none. -/
theorem processPage_goodDoc (n : Nat) :
    processPage ("retrieveUserInfo") (List.replicate n goodDoc) =
      .ok (List.replicate n goodRecA, 0) := by
  simp only [processPage, mapExtract_goodDoc]
  simp [List.filterMap_replicate, List.length_replicate]

/-- A createMany call hitting a hard sink error reports the whole batch
as skipped and leaves the tables unchanged. -/
theorem batchInsertUser_fail (st : DbState) (batch : List ProcessedLogDocument)
    (h1 : batch.isEmpty = false) (h2 : st.calls ∈ st.failSet) :
    batchInsertUserRecordsM st batch =
      ({ st with calls := st.calls + 1 }, 0, batch.length) := by
  simp [batchInsertUserRecordsM, h1, h2]

/-- A healthy createMany call inserts the non-duplicate rows. -/
theorem batchInsertUser_ok (st : DbState) (batch : List ProcessedLogDocument)
    (h1 : batch.isEmpty = false) (h2 : st.calls ∉ st.failSet) :
    batchInsertUserRecordsM st batch =
      ({ st with rows := (insertRows st.rows (batch.map toUserRow)).1,
                 calls := st.calls + 1 },
       (insertRows st.rows (batch.map toUserRow)).2,
       batch.length - (insertRows st.rows (batch.map toUserRow)).2) := by
  simp [batchInsertUserRecordsM, h1, h2]

/-- Inserting n + 1 copies of the same row into an empty table stores
exactly one copy: the first is inserted, the rest are intra-batch
duplicates of its unique key. -/
theorem insertRows_nil_replicate_succ (u : UserRow) (n : Nat) :
    insertRows [] (List.replicate (n + 1) u) = ([u], 1) := by
  rw [List.replicate_succ]
  simp only [insertRows]
  rw [if_neg (by simp)]
  have hall : insertRows ([] ++ [u]) (List.replicate n u) = ([] ++ [u], 0) :=
    insertRows_all_dup (List.replicate n u) ([] ++ [u])
      (fun r hr => by rw [List.eq_of_mem_replicate hr]; simp)
  show ((insertRows ([] ++ [u]) (List.replicate n u)).1,
        (insertRows ([] ++ [u]) (List.replicate n u)).2 + 1) = ([u], 1)
  rw [hall]
  rfl

/-- The non-bukopin run submits to the user-record insert. -/
theorem submitBatch_user (st : DbState) (batch : List ProcessedLogDocument) :
    submitBatch ("retrieveUserInfo") st batch =
      batchInsertUserRecordsM st batch := by
  simp only [submitBatch]
  rw [if_neg (by decide)]

/-- One loop step that reaches the batch size: the whole buffer is
submitted and reset. -/
theorem runLoop_cons_submit (qt : String) (pg : List LogDocument)
    (rest : List (List LogDocument)) (buf : List ProcessedLogDocument)
    (f sp i d : Nat) (subs : List Nat) (st : DbState)
    (K : List ProcessedLogDocument) (sk : Nat)
    (hpp : processPage qt pg = .ok (K, sk))
    (hb : (buf ++ K).length ≥ batchSize) :
    runLoop qt (pg :: rest) buf f sp i d subs st =
      runLoop qt rest [] (f + pg.length) (sp + sk)
        (i + (submitBatch qt st (buf ++ K)).2.1)
        (d + (submitBatch qt st (buf ++ K)).2.2)
        (subs ++ [(buf ++ K).length]) (submitBatch qt st (buf ++ K)).1 := by
  simp only [runLoop, hpp]
  rw [if_pos hb]

/-- One loop step below the batch size: the page's records are
accumulated. -/
theorem runLoop_cons_acc (qt : String) (pg : List LogDocument)
    (rest : List (List LogDocument)) (buf : List ProcessedLogDocument)
    (f sp i d : Nat) (subs : List Nat) (st : DbState)
    (K : List ProcessedLogDocument) (sk : Nat)
    (hpp : processPage qt pg = .ok (K, sk))
    (hb : ¬(buf ++ K).length ≥ batchSize) :
    runLoop qt (pg :: rest) buf f sp i d subs st =
      runLoop qt rest (buf ++ K) (f + pg.length) (sp + sk) i d subs st := by
  simp only [runLoop, hpp]
  rw [if_neg hb]

/-- End of pages with a non-empty buffer: the final flush. -/
theorem runLoop_nil_flush (qt : String) (buf : List ProcessedLogDocument)
    (f sp i d : Nat) (subs : List Nat) (st : DbState)
    (hb : buf.length > 0) :
    runLoop qt [] buf f sp i d subs st =
      ⟨f, sp, i + (submitBatch qt st buf).2.1, d + (submitBatch qt st buf).2.2,
       0, subs ++ [buf.length], (submitBatch qt st buf).1⟩ := by
  simp only [runLoop]
  rw [if_pos hb]

/-- End of pages with an empty buffer: nothing left to flush. -/
theorem runLoop_nil_empty (qt : String) (f sp i d : Nat) (subs : List Nat)
    (st : DbState) :
    runLoop qt [] [] f sp i d subs st = ⟨f, sp, i, d, 0, subs, st⟩ := by
  simp [runLoop]

set_option maxRecDepth 4000 in
theorem claim_C6_counterexample :
    (runPipeline ("retrieveUserInfo")
        [List.replicate 1000 goodDoc, List.replicate 1000 goodDoc]
        ⟨[], [], [0], 0⟩).exitCode = 0 ∧
    (runPipeline ("retrieveUserInfo")
        [List.replicate 1000 goodDoc, List.replicate 1000 goodDoc]
        ⟨[], [], [0], 0⟩).submissions = [1000, 1000] ∧
    (runPipeline ("retrieveUserInfo")
        [List.replicate 1000 goodDoc, List.replicate 1000 goodDoc]
        ⟨[], [], [0], 0⟩).inserted = 1 ∧
    (runPipeline ("retrieveUserInfo")
        [List.replicate 1000 goodDoc, List.replicate 1000 goodDoc]
        ⟨[], [], [0], 0⟩).dbSkipped = 1999 := by
  have hpp := processPage_goodDoc 1000
  have hcons : List.replicate 1000 goodRecA = goodRecA :: List.replicate 999 goodRecA := rfl
  have hb : (([] : List ProcessedLogDocument) ++ List.replicate 1000 goodRecA).length ≥ batchSize := by
    simp [batchSize, List.length_replicate]
  have hkey : batchInsertUserRecordsM ⟨[], [], [0], 0⟩ (List.replicate 1000 goodRecA) =
      (⟨[], [], [0], 1⟩, 0, 1000) := by
    rw [batchInsertUser_fail]
    · simp [List.length_replicate]
    · rw [hcons]; exact List.isEmpty_cons
    · simp
  have hins : insertRows [] (List.map toUserRow (List.replicate 1000 goodRecA)) =
      ([toUserRow goodRecA], 1) := by
    rw [List.map_replicate]
    exact insertRows_nil_replicate_succ (toUserRow goodRecA) 999
  have hok : batchInsertUserRecordsM ⟨[], [], [0], 1⟩ (List.replicate 1000 goodRecA) =
      (⟨[toUserRow goodRecA], [], [0], 2⟩, 1, 999) := by
    rw [batchInsertUser_ok]
    · rw [show (⟨[], [], [0], 1⟩ : DbState).rows = [] from rfl, hins]
      simp [List.length_replicate]
    · rw [hcons]; exact List.isEmpty_cons
    · simp
  have hS1 : submitBatch ("retrieveUserInfo") ⟨[], [], [0], 0⟩
      ([] ++ List.replicate 1000 goodRecA) = (⟨[], [], [0], 1⟩, 0, 1000) := by
    rw [List.nil_append, submitBatch_user, hkey]
  have hS2 : submitBatch ("retrieveUserInfo") ⟨[], [], [0], 1⟩
      ([] ++ List.replicate 1000 goodRecA) = (⟨[toUserRow goodRecA], [], [0], 2⟩, 1, 999) := by
    rw [List.nil_append, submitBatch_user, hok]
  have hrun : runPipeline ("retrieveUserInfo")
      [List.replicate 1000 goodDoc, List.replicate 1000 goodDoc] ⟨[], [], [0], 0⟩ =
      ⟨2000, 0, 1, 1999, 0, [1000, 1000], ⟨[toUserRow goodRecA], [], [0], 2⟩⟩ := by
    rw [runPipeline]
    rw [runLoop_cons_submit ("retrieveUserInfo") (List.replicate 1000 goodDoc)
         [List.replicate 1000 goodDoc] [] 0 0 0 0 [] ⟨[], [], [0], 0⟩
         (List.replicate 1000 goodRecA) 0 hpp hb]
    rw [hS1]
    norm_num [List.length_replicate]
    rw [runLoop_cons_submit ("retrieveUserInfo") (List.replicate 1000 goodDoc)
         [] [] 1000 0 0 1000 [1000] ⟨[], [], [0], 1⟩
         (List.replicate 1000 goodRecA) 0 hpp hb]
    rw [hS2]
    norm_num [List.length_replicate]
    rw [runLoop_nil_empty]
  rw [hrun]
  exact ⟨rfl, rfl, rfl, rfl⟩

/-- Counterexample for C7 as stated: 2500 projected records arriving in
one page produce a single submission of 2500 rows, not three submissions
of 1000, 1000 and 500 — the loader submits the whole accumulated buffer
at a page boundary once it has reached the batch size. -/
theorem claim_C7_counterexample :
    (runPipeline ("retrieveUserInfo") [List.replicate 2500 goodDoc]
        ⟨[], [], [], 0⟩).fetched = 2500 ∧
    (runPipeline ("retrieveUserInfo") [List.replicate 2500 goodDoc]
        ⟨[], [], [], 0⟩).payloadSkipped = 0 ∧
    (runPipeline ("retrieveUserInfo") [List.replicate 2500 goodDoc]
        ⟨[], [], [], 0⟩).submissions = [2500] := by
  have hpp := processPage_goodDoc 2500
  have hb : (([] : List ProcessedLogDocument) ++ List.replicate 2500 goodRecA).length ≥ batchSize := by
    rw [List.nil_append, List.length_replicate]
    decide
  have hrun := runLoop_cons_submit ("retrieveUserInfo") (List.replicate 2500 goodDoc)
    [] [] 0 0 0 0 [] ⟨[], [], [], 0⟩ (List.replicate 2500 goodRecA) 0 hpp hb
  rw [runLoop_nil_empty] at hrun
  rw [runPipeline, hrun]
  refine ⟨?_, ?_, ?_⟩
  · show 0 + (List.replicate 2500 goodDoc).length = 2500
    rw [List.length_replicate]
  · rfl
  · show [] ++ [([] ++ List.replicate 2500 goodRecA).length] = [2500]
    rw [List.nil_append, List.nil_append, List.length_replicate]

/-- Claim C7 (corrected): the loader submits the entire accumulated
buffer at each page boundary where it has reached the batch size of
1000 and flushes the remainder after the last page. With 2500 projected
records arriving in five pages of 500 the boundaries align and exactly
three submissions of 1000, 1000 and 500 are issued (the trailing 500 via
the final flush); other page groupings can produce oversized submissions
(see the counterexample). -/
theorem claim_C7_amended :
    (runPipeline ("retrieveUserInfo")
        [List.replicate 500 goodDoc, List.replicate 500 goodDoc,
         List.replicate 500 goodDoc, List.replicate 500 goodDoc,
         List.replicate 500 goodDoc]
        ⟨[], [], [], 0⟩).fetched = 2500 ∧
    (runPipeline ("retrieveUserInfo")
        [List.replicate 500 goodDoc, List.replicate 500 goodDoc,
         List.replicate 500 goodDoc, List.replicate 500 goodDoc,
         List.replicate 500 goodDoc]
        ⟨[], [], [], 0⟩).payloadSkipped = 0 ∧
    (runPipeline ("retrieveUserInfo")
        [List.replicate 500 goodDoc, List.replicate 500 goodDoc,
         List.replicate 500 goodDoc, List.replicate 500 goodDoc,
         List.replicate 500 goodDoc]
        ⟨[], [], [], 0⟩).submissions = [1000, 1000, 500] := by
  have hpp := processPage_goodDoc 500
  have hblt : ¬(([] : List ProcessedLogDocument) ++ List.replicate 500 goodRecA).length ≥ batchSize := by
    rw [List.nil_append, List.length_replicate]
    decide
  have hbge : ((([] : List ProcessedLogDocument) ++ List.replicate 500 goodRecA) ++ List.replicate 500 goodRecA).length ≥ batchSize := by
    rw [List.nil_append, List.length_append, List.length_replicate]
    decide
  have hflush : (([] : List ProcessedLogDocument) ++ List.replicate 500 goodRecA).length > 0 := by
    rw [List.nil_append, List.length_replicate]
    decide
  rw [runPipeline]
  rw [runLoop_cons_acc ("retrieveUserInfo") (List.replicate 500 goodDoc) _ [] 0 0 0 0 []
       ⟨[], [], [], 0⟩ (List.replicate 500 goodRecA) 0 hpp hblt]
  rw [runLoop_cons_submit ("retrieveUserInfo") (List.replicate 500 goodDoc) _
       ([] ++ List.replicate 500 goodRecA) _ _ _ _ [] ⟨[], [], [], 0⟩
       (List.replicate 500 goodRecA) 0 hpp hbge]
  rw [runLoop_cons_acc ("retrieveUserInfo") (List.replicate 500 goodDoc) _ [] _ _ _ _ _ _
       (List.replicate 500 goodRecA) 0 hpp hblt]
  rw [runLoop_cons_submit ("retrieveUserInfo") (List.replicate 500 goodDoc) _
       ([] ++ List.replicate 500 goodRecA) _ _ _ _ _ _
       (List.replicate 500 goodRecA) 0 hpp hbge]
  rw [runLoop_cons_acc ("retrieveUserInfo") (List.replicate 500 goodDoc) _ [] _ _ _ _ _ _
       (List.replicate 500 goodRecA) 0 hpp hblt]
  rw [runLoop_nil_flush ("retrieveUserInfo") ([] ++ List.replicate 500 goodRecA) _ _ _ _ _ _ hflush]
  refine ⟨?_, ?_, ?_⟩
  · show 0 + (List.replicate 500 goodDoc).length + (List.replicate 500 goodDoc).length
        + (List.replicate 500 goodDoc).length + (List.replicate 500 goodDoc).length
        + (List.replicate 500 goodDoc).length = 2500
    rw [List.length_replicate]
  · rfl
  · rw [List.nil_append, List.length_append, List.length_replicate, List.nil_append,
        List.length_replicate]
    rfl


/-- The teardown attempts clearScroll exactly when a scroll id is held. -/
theorem clearAttempts_eq (b : EsBackend) (sid : Option String) :
    clearAttempts b sid = if sid.isSome then 1 else 0 := by
  cases sid with
  | none => rfl
  | some s => cases h : b.clearResult <;> simp [clearAttempts, h]

/-- The teardown never propagates a clearScroll failure (the call is
wrapped in its own try/catch). -/
theorem clearPropagates_false (b : EsBackend) (sid : Option String) :
    clearPropagates b sid = false := by
  cases sid with
  | none => rfl
  | some s => cases h : b.clearResult <;> simp [clearPropagates, h]

/-- On every exit path of the scroll loop, the number of clearScroll
attempts is 1 when a scroll id is held at teardown and 0 otherwise. -/
theorem fetchLoop_clear_eq (b : EsBackend) :
    ∀ (consume : Nat) (hits : List LogDocument) (sid : Option String) (idx : Nat),
      (fetchLoop b hits sid idx consume).clearCalls =
        (if (fetchLoop b hits sid idx consume).sidAtEnd.isSome then 1 else 0) := by
  intro consume
  induction consume with
  | zero =>
    intro hits sid idx
    cases hits with
    | nil => simp [fetchLoop, clearAttempts_eq]
    | cons hh ht =>
      cases sid with
      | none => simp [fetchLoop, clearAttempts_eq]
      | some s => simp [fetchLoop, clearAttempts_eq]
  | succ c ih =>
    intro hits sid idx
    cases hits with
    | nil => simp [fetchLoop, clearAttempts_eq]
    | cons hh ht =>
      cases sid with
      | none => simp [fetchLoop, clearAttempts_eq]
      | some s =>
        cases hsr : b.scrollResult idx with
        | error e => simp [fetchLoop, hsr, clearAttempts_eq]
        | ok pr =>
          simp only [fetchLoop, hsr]
          exact ih pr.1 pr.2 (idx + 1)

/-- The observable outcome of the scroll loop depends only on the scroll
responses, not on the clearScroll outcome: a release failure changes
nothing the caller can see. -/
theorem fetchLoop_backend_indep (b b2 : EsBackend)
    (hsc : b.scrollResult = b2.scrollResult) :
    ∀ (consume : Nat) (hits : List LogDocument) (sid : Option String) (idx : Nat),
      fetchLoop b hits sid idx consume = fetchLoop b2 hits sid idx consume := by
  have hca : ∀ sid, clearAttempts b sid = clearAttempts b2 sid := by
    intro sid
    rw [clearAttempts_eq, clearAttempts_eq]
  have hcp : ∀ sid, clearPropagates b sid = clearPropagates b2 sid := by
    intro sid
    rw [clearPropagates_false, clearPropagates_false]
  intro consume
  induction consume with
  | zero =>
    intro hits sid idx
    cases hits with
    | nil => simp [fetchLoop, hca, hcp]
    | cons hh ht =>
      cases sid with
      | none => simp [fetchLoop, hca, hcp]
      | some s => simp [fetchLoop, hca, hcp]
  | succ c ih =>
    intro hits sid idx
    cases hits with
    | nil => simp [fetchLoop, hca, hcp]
    | cons hh ht =>
      cases sid with
      | none => simp [fetchLoop, hca, hcp]
      | some s =>
        cases hsr : b2.scrollResult idx with
        | error e =>
          have hsr1 : b.scrollResult idx = .error e := by rw [hsc, hsr]
          simp [fetchLoop, hsr, hsr1, hca, hcp]
        | ok pr =>
          have hsr1 : b.scrollResult idx = .ok pr := by rw [hsc, hsr]
          simp only [fetchLoop, hsr, hsr1]
          rw [ih pr.1 pr.2 (idx + 1)]

/-- Claim C1 (corrected): cursor release is attempted AT MOST once per
run, and exactly once on every exit path at which a scroll id is held at
teardown (normal completion with an id, a scroll error, abandonment);
when no scroll id is held — the initial search failed, or the last
response carried no id — no release is attempted. A failure of the
release call itself changes nothing observable: the run outcome is
identical for every clearScroll result. -/
theorem claim_C1_amended (b : EsBackend) (consume : Nat) (cr : Except Unit Unit) :
    (runFetchLogs b consume).clearCalls ≤ 1 ∧
    ((runFetchLogs b consume).clearCalls =
      if (runFetchLogs b consume).sidAtEnd.isSome then 1 else 0) ∧
    runFetchLogs { b with clearResult := cr } consume = runFetchLogs b consume := by
  have hf : (runFetchLogs b consume).clearCalls =
      if (runFetchLogs b consume).sidAtEnd.isSome then 1 else 0 := by
    unfold runFetchLogs
    cases hs : b.searchResult with
    | error e => rfl
    | ok pr => exact fetchLoop_clear_eq b consume pr.1 pr.2 0
  refine ⟨?_, hf, ?_⟩
  · rw [hf]
    split <;> omega
  · unfold runFetchLogs
    have hs2 : ({ b with clearResult := cr } : EsBackend).searchResult = b.searchResult := rfl
    rw [hs2]
    cases hs : b.searchResult with
    | error e => rfl
    | ok pr =>
      exact fetchLoop_backend_indep
        ⟨Except.ok pr, b.scrollResult, cr⟩ b rfl consume pr.1 pr.2 0

/-- Counterexample for C1 as stated: when the initial search request
itself fails, the error propagates but no scroll id was ever assigned,
so the teardown attempts zero clearScroll calls — not exactly one — on
this fetch-error exit path. -/
theorem claim_C1_counterexample :
    (runFetchLogs esBackendSearchErr 3).fatalErr = true ∧
    (runFetchLogs esBackendSearchErr 3).clearCalls = 0 :=
  ⟨rfl, rfl⟩

end ElasticTools
